import Mathlib

/-
Verification of the marketing-strategy pipeline in
src/autogen/autogen_marketing_demo.py (class MarketingStrategyWorkflow).

The script runs five phases in a fixed order; each phase builds a system
prompt and a user prompt from previously stored outputs, issues one
chat-completion request, and stores the returned text in an
insertion-ordered mapping self.outputs.

Shallow embedding choices:
- The insertion-ordered Python dict self.outputs is a List (String x String)
  of key-value pairs in insertion order; assignment d[k] = v is dictInsert,
  which updates in place when the key is present and appends otherwise.
- The OpenAI chat-completion client is an abstract generation service
  ServiceM sigma : sigma -> Request -> Except String String x sigma
  (a possibly stateful function from a request to either an error or the
  generated text, threading service state sigma).  Raising an exception in
  Python corresponds to Except.error, which aborts the remaining phases.
- Config.validate_setup() is a Bool parameter of the pipeline entry point
  (the config module is an external collaborator; the gate logic itself,
  lines 22-26 of the source, is modelled in runPipeline).
- Temperatures 0.7 and 0.5 are the exact rationals 7/10 and 5/10.
- Python dict access self.outputs[k] is getOut, which returns the stored
  value; the default "" branch is unreachable in the control flow of the
  script because every phase only reads keys written by earlier phases.
-/

namespace AutogenMarketing

/-- One role-tagged chat message, as in the messages list of each request. -/
structure Message where
  role : String
  content : String
  deriving DecidableEq, Repr

/-- One chat-completion request: model identifier, temperature, max-tokens
cap and the ordered message list, mirroring the keyword arguments of
client.chat.completions.create in the source. -/
structure Request where
  model : String
  temperature : ℚ
  max_tokens : Nat
  messages : List Message
  deriving DecidableEq, Repr

/-- A generation service with internal state sigma: given its state and a
request it returns either an error (a raised exception in the source) or
the generated text, together with its next state. -/
def ServiceM (σ : Type) : Type := σ → Request → Except String String × σ

/-- The mutable part of a MarketingStrategyWorkflow instance: the model
identifier, the product name and the insertion-ordered outputs mapping. -/
structure Workflow where
  model : String
  product_name : String
  outputs : List (String × String)
  deriving DecidableEq, Repr

/-- Python dict read d[k]: the value stored under the first occurrence of
key k ("" when absent; unreachable in the control flow of the script). -/
def getOut (d : List (String × String)) (k : String) : String :=
  (d.lookup k).getD ""

/-- Python dict assignment d[k] = v: update in place when k is present,
append (k, v) otherwise, preserving insertion order. -/
def dictInsert (d : List (String × String)) (k v : String) :
    List (String × String) :=
  if (d.lookup k).isSome then
    d.map (fun p => if p.1 == k then (k, v) else p)
  else
    d ++ [(k, v)]

/-- The part of the phase 1 system prompt before the product name. -/
def phase1SystemPromptPre : String :=
  "\nYou are a senior market research analyst.\nAnalyze the wearable technology market for the product: "

/-- The part of the phase 1 system prompt after the product name. -/
def phase1SystemPromptPost : String :=
  ".\n\nProvide:\n- Top 3 competitors\n- Their positioning\n- Pricing\n- Key features\n- Market trends\nLimit to 150–200 words.\n"

/-- Phase 1 system prompt (lines 59-70): the f-string with the product name
substituted. -/
def phase1SystemPrompt (product_name : String) : String :=
  phase1SystemPromptPre ++ product_name ++ phase1SystemPromptPost

/-- Phase 1 user prompt (line 78): a fixed instruction, no prior outputs. -/
def phase1UserPrompt : String := "Provide competitor analysis."

/-- Phase 2 system prompt (lines 93-104): a fixed string (the f-string has
no substitution). -/
def phase2SystemPrompt : String :=
  "\nYou are a consumer behavior expert.\nBased on the market research, identify:\n\n- Target customer segments\n- User pain points\n- Motivations\n- Purchase triggers\n- Unmet needs\n\nLimit to 150 words.\n"

/-- Phase 2 user prompt (line 106): built from the phase-1 output only. -/
def phase2UserPrompt (d : List (String × String)) : String :=
  "Here is the market research:\n" ++ getOut d "market_research"
    ++ "\n\nAnalyze customers."

/-- The part of the phase 3 system prompt before the product name. -/
def phase3SystemPromptPre : String :=
  "\nYou are a marketing strategist.\nCreate a marketing strategy for: "

/-- The part of the phase 3 system prompt after the product name. -/
def phase3SystemPromptPost : String :=
  "\n\nInclude:\n- Positioning statement\n- Value proposition\n- Key messaging pillars\n- Channels to target\n- Pricing strategy\n- Brand voice direction\n\nLimit to 200 words.\n"

/-- Phase 3 system prompt (lines 129-142): the f-string with the product
name substituted. -/
def phase3SystemPrompt (product_name : String) : String :=
  phase3SystemPromptPre ++ product_name ++ phase3SystemPromptPost

/-- Phase 3 user prompt (lines 144-150): built from the phase-1 and
phase-2 outputs. -/
def phase3UserPrompt (d : List (String × String)) : String :=
  "\nMarket Research:\n" ++ getOut d "market_research"
    ++ "\n\nCustomer Insights:\n" ++ getOut d "customer_analysis" ++ "\n"

/-- Phase 4 system prompt (lines 173-187): a fixed string. -/
def phase4SystemPrompt : String :=
  "\nYou are a creative campaign director.\nDesign 3 marketing campaigns:\n\n1. Digital campaign\n2. Influencer campaign\n3. Content/SEO campaign\n\nInclude:\n- Goal\n- Target channels\n- Creative concept\n- KPIs\nKeep each campaign short and crisp.\n"

/-- Phase 4 user prompt (lines 189-195): built from the phase-3 output
only. -/
def phase4UserPrompt (d : List (String × String)) : String :=
  "\nBased on the marketing strategy:\n\n" ++ getOut d "strategy"
    ++ "\n\nGenerate the 3 campaigns.\n"

/-- Phase 5 system prompt (lines 218-222): a fixed string. -/
def phase5SystemPrompt : String :=
  "\nYou are a quality editor. Improve clarity, flow, and formatting.\nCombine all sections into a polished executive summary.\nMax 250 words.\n"

/-- Phase 5 user prompt (lines 224-236): built from the outputs of phases
1 through 4. -/
def phase5UserPrompt (d : List (String × String)) : String :=
  "\nMarket Research:\n" ++ getOut d "market_research"
    ++ "\n\nCustomer Insights:\n" ++ getOut d "customer_analysis"
    ++ "\n\nMarketing Strategy:\n" ++ getOut d "strategy"
    ++ "\n\nCampaigns:\n" ++ getOut d "campaigns" ++ "\n"

/-- The request issued by phase 1 (lines 72-80): temperature 0.7,
max_tokens 500, system message then user message. -/
def phase1Req (w : Workflow) : Request :=
  { model := w.model, temperature := (7 : ℚ)/10, max_tokens := 500,
    messages :=
      [{ role := "system", content := phase1SystemPrompt w.product_name },
       { role := "user", content := phase1UserPrompt }] }

/-- The request issued by phase 2 (lines 108-116): temperature 0.7,
max_tokens 400. -/
def phase2Req (w : Workflow) : Request :=
  { model := w.model, temperature := (7 : ℚ)/10, max_tokens := 400,
    messages :=
      [{ role := "system", content := phase2SystemPrompt },
       { role := "user", content := phase2UserPrompt w.outputs }] }

/-- The request issued by phase 3 (lines 152-160): temperature 0.7,
max_tokens 500. -/
def phase3Req (w : Workflow) : Request :=
  { model := w.model, temperature := (7 : ℚ)/10, max_tokens := 500,
    messages :=
      [{ role := "system", content := phase3SystemPrompt w.product_name },
       { role := "user", content := phase3UserPrompt w.outputs }] }

/-- The request issued by phase 4 (lines 197-205): temperature 0.7,
max_tokens 500. -/
def phase4Req (w : Workflow) : Request :=
  { model := w.model, temperature := (7 : ℚ)/10, max_tokens := 500,
    messages :=
      [{ role := "system", content := phase4SystemPrompt },
       { role := "user", content := phase4UserPrompt w.outputs }] }

/-- The request issued by phase 5 (lines 238-246): temperature 0.5,
max_tokens 500. -/
def phase5Req (w : Workflow) : Request :=
  { model := w.model, temperature := (5 : ℚ)/10, max_tokens := 500,
    messages :=
      [{ role := "system", content := phase5SystemPrompt },
       { role := "user", content := phase5UserPrompt w.outputs }] }

/-- The five phases in the fixed order of run (lines 43-47): storage key
together with the request builder of the phase. -/
def phaseList : List (String × (Workflow → Request)) :=
  [("market_research", phase1Req),
   ("customer_analysis", phase2Req),
   ("strategy", phase3Req),
   ("campaigns", phase4Req),
   ("quality", phase5Req)]

/-- The state of one run: the workflow instance, the service state, the
trace of requests actually sent, and the pending error (some e once a
service call has raised; the remaining phases are then skipped, modelling
the uncaught exception aborting the script). -/
structure RunState (σ : Type) where
  w : Workflow
  svcState : σ
  calls : List Request
  err : Option String

/-- Execute one phase: when no error is pending, build the request, call
the service (recording the request in the trace), and either store the
response under the phase key (line 82 / 118 / 162 / 207 / 248) or record
the error.  When an error is already pending the phase does not run. -/
def stepPhase {σ : Type} (svc : ServiceM σ) (key : String)
    (mkReq : Workflow → Request) (s : RunState σ) : RunState σ :=
  match s.err with
  | some _ => s
  | none =>
    let req := mkReq s.w
    match svc s.svcState req with
    | (Except.ok text, st) =>
        { s with
          w := { s.w with outputs := dictInsert s.w.outputs key text },
          svcState := st,
          calls := s.calls ++ [req] }
    | (Except.error e, st) =>
        { s with svcState := st, calls := s.calls ++ [req], err := some e }

/-- Run a list of phases in order from a given state. -/
def runPhases {σ : Type} (svc : ServiceM σ) (s : RunState σ)
    (ps : List (String × (Workflow → Request))) : RunState σ :=
  ps.foldl (fun acc p => stepPhase svc p.1 p.2 acc) s

/-- A fresh workflow instance: empty outputs (line 28). -/
def mkWorkflow (model product_name : String) : Workflow :=
  { model := model, product_name := product_name, outputs := [] }

/-- The default product name of the constructor (line 22). -/
def default_product_name : String := "SmartHealth Fitness Band"

/-- The workflow instance built when no product name is supplied. -/
def mkWorkflowDefault (model : String) : Workflow :=
  mkWorkflow model default_product_name

/-- The initial run state: fresh workflow, given service state, no calls
made, no error. -/
def initState {σ : Type} (st : σ) (model product_name : String) :
    RunState σ :=
  { w := mkWorkflow model product_name, svcState := st,
    calls := [], err := none }

/-- run() (lines 35-49): execute the five phases in order. -/
def runWorkflow {σ : Type} (svc : ServiceM σ) (st : σ)
    (model product_name : String) : RunState σ :=
  runPhases svc (initState st model product_name) phaseList

/-- The whole entry point including the configuration gate of the
constructor (lines 22-26): when validation fails the script prints an
error and exits before creating the client, so no phase runs and no
request is sent. -/
def runPipeline {σ : Type} (cfgValid : Bool) (svc : ServiceM σ) (st : σ)
    (model product_name : String) : Except String (RunState σ) :=
  if cfgValid then Except.ok (runWorkflow svc st model product_name)
  else Except.error "ERROR: Configuration validation failed!"

/-- The requests sent by a pipeline run (none when the configuration gate
fired). -/
def pipelineCalls {σ : Type} : Except String (RunState σ) → List Request
  | Except.ok s => s.calls
  | Except.error _ => []

/-- Python str.upper() on the phase keys: upper-case every character.
This is extensionally String.toUpper, written over the character list so
that it reduces inside the kernel. -/
def upperKey (s : String) : String :=
  String.mk (s.data.map Char.toUpper)

/-- print_summary (lines 254-261): iterate the outputs mapping in
insertion order, printing an upper-cased header line and the stored value
for each entry. -/
def summaryLines (d : List (String × String)) : List String :=
  d.flatMap (fun p => ["\n--- " ++ upperKey p.1 ++ " ---\n", p.2])

/-- A scripted generation service: returns the canned results one by one
in order, regardless of the request (a test double for the five calls of
one run). -/
def scriptSvc : ServiceM (List (Except String String)) :=
  fun rs _ =>
    match rs with
    | [] => (Except.error "no scripted response", [])
    | r :: rest => (r, rest)

/-- A stateless deterministic service built from a response function. -/
def pureSvc (f : Request → Except String String) : ServiceM Unit :=
  fun _ req => (f req, ())

/-- The workflow state reached after the first n phases of a scripted
run. -/
def afterPhases (resps : List (Except String String))
    (model product_name : String) (n : Nat) :
    RunState (List (Except String String)) :=
  runPhases scriptSvc (initState resps model product_name)
    (phaseList.take n)

/-- The system-message content of a request (content of its first
message). -/
def sysContent (r : Request) : String :=
  ((r.messages.head?).map Message.content).getD ""

/-- The user-message content of a request (content of its second
message). -/
def userContent (r : Request) : String :=
  (((r.messages.drop 1).head?).map Message.content).getD ""

/-- The role sequence of a request, in message order. -/
def roleSeq (r : Request) : List String :=
  r.messages.map Message.role

/-- Unfolding: running no phase leaves the state unchanged. -/
theorem runPhases_nil {σ : Type} (svc : ServiceM σ) (s : RunState σ) :
    runPhases svc s [] = s := rfl

/-- Unfolding: running a phase list executes its head first. -/
theorem runPhases_cons {σ : Type} (svc : ServiceM σ) (s : RunState σ)
    (p : String × (Workflow → Request))
    (ps : List (String × (Workflow → Request))) :
    runPhases svc s (p :: ps) = runPhases svc (stepPhase svc p.1 p.2 s) ps :=
  rfl

/-- C1: a run against a service answering R1..R5 on the five successive
calls ends with outputs bound, in insertion order, to exactly the keys
market_research, customer_analysis, strategy, campaigns, quality with
values R1..R5, and the final summary iterates them in that same order. -/
theorem run_outputs_fixed_order (R1 R2 R3 R4 R5 model product_name : String) :
    (runWorkflow scriptSvc
        [Except.ok R1, Except.ok R2, Except.ok R3, Except.ok R4, Except.ok R5]
        model product_name).w.outputs
      = [("market_research", R1), ("customer_analysis", R2),
         ("strategy", R3), ("campaigns", R4), ("quality", R5)]
    ∧ summaryLines
        (runWorkflow scriptSvc
          [Except.ok R1, Except.ok R2, Except.ok R3, Except.ok R4, Except.ok R5]
          model product_name).w.outputs
      = ["\n--- MARKET_RESEARCH ---\n", R1,
         "\n--- CUSTOMER_ANALYSIS ---\n", R2,
         "\n--- STRATEGY ---\n", R3,
         "\n--- CAMPAIGNS ---\n", R4,
         "\n--- QUALITY ---\n", R5] :=
  ⟨rfl, rfl⟩

/-- C2: each user prompt is the prompt actually placed in the request of
its phase, phase 1 uses a fixed instruction, and each later prompt is
determined by exactly the outputs of the phases strictly before it, so a
later-phase output can never influence an earlier prompt. -/
theorem user_prompts_depend_only_on_prior_outputs
    (d d' : List (String × String)) :
    phase1UserPrompt = "Provide competitor analysis."
    ∧ (∀ w : Workflow,
          userContent (phase1Req w) = phase1UserPrompt
        ∧ userContent (phase2Req w) = phase2UserPrompt w.outputs
        ∧ userContent (phase3Req w) = phase3UserPrompt w.outputs
        ∧ userContent (phase4Req w) = phase4UserPrompt w.outputs
        ∧ userContent (phase5Req w) = phase5UserPrompt w.outputs)
    ∧ (getOut d "market_research" = getOut d' "market_research" →
          phase2UserPrompt d = phase2UserPrompt d')
    ∧ (getOut d "market_research" = getOut d' "market_research" →
       getOut d "customer_analysis" = getOut d' "customer_analysis" →
          phase3UserPrompt d = phase3UserPrompt d')
    ∧ (getOut d "strategy" = getOut d' "strategy" →
          phase4UserPrompt d = phase4UserPrompt d')
    ∧ (getOut d "market_research" = getOut d' "market_research" →
       getOut d "customer_analysis" = getOut d' "customer_analysis" →
       getOut d "strategy" = getOut d' "strategy" →
       getOut d "campaigns" = getOut d' "campaigns" →
          phase5UserPrompt d = phase5UserPrompt d') := by
  refine ⟨rfl, fun w => ⟨rfl, rfl, rfl, rfl, rfl⟩, ?_, ?_, ?_, ?_⟩
  · intro h1
    simp [phase2UserPrompt, h1]
  · intro h1 h2
    simp [phase3UserPrompt, h1, h2]
  · intro h3
    simp [phase4UserPrompt, h3]
  · intro h1 h2 h3 h4
    simp [phase5UserPrompt, h1, h2, h3, h4]

/-- Two complete outputs mappings agreeing on phases 1-4 but holding
different phase-5 texts. -/
def dW : List (String × String) :=
  [("market_research", "A"), ("customer_analysis", "B"),
   ("strategy", "C"), ("campaigns", "D"), ("quality", "E1")]

/-- As dW but with a different value under the quality key. -/
def dW' : List (String × String) :=
  [("market_research", "A"), ("customer_analysis", "B"),
   ("strategy", "C"), ("campaigns", "D"), ("quality", "E2")]

/-- Witness for C2: on two concrete mappings that differ only in the
phase-5 entry, every user prompt coincides. -/
theorem user_prompts_depend_only_on_prior_outputs_witness :
    phase2UserPrompt dW = phase2UserPrompt dW'
    ∧ phase3UserPrompt dW = phase3UserPrompt dW'
    ∧ phase4UserPrompt dW = phase4UserPrompt dW'
    ∧ phase5UserPrompt dW = phase5UserPrompt dW' :=
  ⟨(user_prompts_depend_only_on_prior_outputs dW dW').2.2.1 rfl,
   (user_prompts_depend_only_on_prior_outputs dW dW').2.2.2.1 rfl rfl,
   (user_prompts_depend_only_on_prior_outputs dW dW').2.2.2.2.1 rfl,
   (user_prompts_depend_only_on_prior_outputs dW dW').2.2.2.2.2 rfl rfl rfl rfl⟩

/-- C3: with a failing configuration check the pipeline stops with the
error message of line 24 and the generation service receives zero
requests, whatever the service, its state, the model and the product. -/
theorem config_gate_blocks_generation {σ : Type} (svc : ServiceM σ) (st : σ)
    (model product_name : String) :
    runPipeline false svc st model product_name
      = Except.error "ERROR: Configuration validation failed!"
    ∧ (pipelineCalls (runPipeline false svc st model product_name)).length
        = 0 :=
  ⟨rfl, rfl⟩

/-- C4: when the service raises on the third call, the run ends with
outputs holding exactly the phase-1 and phase-2 entries, exactly three
requests were ever sent (so phases 4 and 5 never ran and consumed nothing
from the script), and the pending error is the raised one. -/
theorem phase3_failure_aborts (R1 R2 e model product_name : String)
    (rest : List (Except String String)) :
    (runWorkflow scriptSvc
        ([Except.ok R1, Except.ok R2, Except.error e] ++ rest)
        model product_name).w.outputs
      = [("market_research", R1), ("customer_analysis", R2)]
    ∧ (runWorkflow scriptSvc
        ([Except.ok R1, Except.ok R2, Except.error e] ++ rest)
        model product_name).calls.length = 3
    ∧ (runWorkflow scriptSvc
        ([Except.ok R1, Except.ok R2, Except.error e] ++ rest)
        model product_name).err = some e
    ∧ (runWorkflow scriptSvc
        ([Except.ok R1, Except.ok R2, Except.error e] ++ rest)
        model product_name).svcState = rest :=
  ⟨rfl, rfl, rfl, rfl⟩

/-- C5: a full run sends exactly five requests, one per phase, with
temperature 0.7 on phases 1-4 and 0.5 on phase 5, and max_tokens 500 on
phases 1, 3, 4, 5 and 400 on phase 2. -/
theorem phase_request_parameters (R1 R2 R3 R4 R5 model product_name : String) :
    (runWorkflow scriptSvc
        [Except.ok R1, Except.ok R2, Except.ok R3, Except.ok R4, Except.ok R5]
        model product_name).calls.length = 5
    ∧ (runWorkflow scriptSvc
        [Except.ok R1, Except.ok R2, Except.ok R3, Except.ok R4, Except.ok R5]
        model product_name).calls.map Request.temperature
      = [(7 : ℚ)/10, (7 : ℚ)/10, (7 : ℚ)/10, (7 : ℚ)/10, (5 : ℚ)/10]
    ∧ (runWorkflow scriptSvc
        [Except.ok R1, Except.ok R2, Except.ok R3, Except.ok R4, Except.ok R5]
        model product_name).calls.map Request.max_tokens
      = [500, 400, 500, 500, 500] :=
  ⟨rfl, rfl, rfl⟩

/-- C6: the phase 1 and phase 3 system prompts contain the product name
as a substring for every product name, the phase 2, 4 and 5 system
prompts are fixed strings not depending on the workflow, and with product
name Widget X the phase-1 system prompt contains the substring
Widget X. -/
theorem system_prompts_product_substitution (w : Workflow) :
    (∃ p q, sysContent (phase1Req w) = p ++ w.product_name ++ q)
    ∧ (∃ p q, sysContent (phase3Req w) = p ++ w.product_name ++ q)
    ∧ (∀ w2 : Workflow,
          sysContent (phase2Req w) = sysContent (phase2Req w2)
        ∧ sysContent (phase4Req w) = sysContent (phase4Req w2)
        ∧ sysContent (phase5Req w) = sysContent (phase5Req w2))
    ∧ (∃ p q, phase1SystemPrompt "Widget X" = p ++ "Widget X" ++ q) :=
  ⟨⟨phase1SystemPromptPre, phase1SystemPromptPost, rfl⟩,
   ⟨phase3SystemPromptPre, phase3SystemPromptPost, rfl⟩,
   fun _ => ⟨rfl, rfl, rfl⟩,
   ⟨phase1SystemPromptPre, phase1SystemPromptPost, rfl⟩⟩

/-- C7: along a successful run the outputs mapping grows by exactly one
appended entry per phase, each time under a key absent before, no earlier
entry is ever rewritten, and the state after the full run is the phase-5
state (the summary step only reads it). -/
theorem outputs_grow_monotonically (R1 R2 R3 R4 R5 model product_name : String) :
    (afterPhases [Except.ok R1, Except.ok R2, Except.ok R3, Except.ok R4,
        Except.ok R5] model product_name 0).w.outputs = []
    ∧ (afterPhases [Except.ok R1, Except.ok R2, Except.ok R3, Except.ok R4,
        Except.ok R5] model product_name 1).w.outputs
      = (afterPhases [Except.ok R1, Except.ok R2, Except.ok R3, Except.ok R4,
          Except.ok R5] model product_name 0).w.outputs
        ++ [("market_research", R1)]
    ∧ ((afterPhases [Except.ok R1, Except.ok R2, Except.ok R3, Except.ok R4,
        Except.ok R5] model product_name 0).w.outputs.lookup "market_research")
      = none
    ∧ (afterPhases [Except.ok R1, Except.ok R2, Except.ok R3, Except.ok R4,
        Except.ok R5] model product_name 2).w.outputs
      = (afterPhases [Except.ok R1, Except.ok R2, Except.ok R3, Except.ok R4,
          Except.ok R5] model product_name 1).w.outputs
        ++ [("customer_analysis", R2)]
    ∧ ((afterPhases [Except.ok R1, Except.ok R2, Except.ok R3, Except.ok R4,
        Except.ok R5] model product_name 1).w.outputs.lookup "customer_analysis")
      = none
    ∧ (afterPhases [Except.ok R1, Except.ok R2, Except.ok R3, Except.ok R4,
        Except.ok R5] model product_name 3).w.outputs
      = (afterPhases [Except.ok R1, Except.ok R2, Except.ok R3, Except.ok R4,
          Except.ok R5] model product_name 2).w.outputs
        ++ [("strategy", R3)]
    ∧ ((afterPhases [Except.ok R1, Except.ok R2, Except.ok R3, Except.ok R4,
        Except.ok R5] model product_name 2).w.outputs.lookup "strategy")
      = none
    ∧ (afterPhases [Except.ok R1, Except.ok R2, Except.ok R3, Except.ok R4,
        Except.ok R5] model product_name 4).w.outputs
      = (afterPhases [Except.ok R1, Except.ok R2, Except.ok R3, Except.ok R4,
          Except.ok R5] model product_name 3).w.outputs
        ++ [("campaigns", R4)]
    ∧ ((afterPhases [Except.ok R1, Except.ok R2, Except.ok R3, Except.ok R4,
        Except.ok R5] model product_name 3).w.outputs.lookup "campaigns")
      = none
    ∧ (afterPhases [Except.ok R1, Except.ok R2, Except.ok R3, Except.ok R4,
        Except.ok R5] model product_name 5).w.outputs
      = (afterPhases [Except.ok R1, Except.ok R2, Except.ok R3, Except.ok R4,
          Except.ok R5] model product_name 4).w.outputs
        ++ [("quality", R5)]
    ∧ ((afterPhases [Except.ok R1, Except.ok R2, Except.ok R3, Except.ok R4,
        Except.ok R5] model product_name 4).w.outputs.lookup "quality")
      = none
    ∧ (runWorkflow scriptSvc [Except.ok R1, Except.ok R2, Except.ok R3,
        Except.ok R4, Except.ok R5] model product_name).w.outputs
      = (afterPhases [Except.ok R1, Except.ok R2, Except.ok R3, Except.ok R4,
          Except.ok R5] model product_name 5).w.outputs :=
  ⟨rfl, rfl, rfl, rfl, rfl, rfl, rfl, rfl, rfl, rfl, rfl, rfl⟩

/-- A run against a service whose answers depend only on the request
produces the same workflow, trace and error as the stateless service of
its response function, from any starting service state. -/
theorem runPhases_state_independent {σ : Type} (svc : ServiceM σ)
    (f : Request → Except String String)
    (h : ∀ st req, (svc st req).1 = f req) :
    ∀ (ps : List (String × (Workflow → Request))) (w : Workflow) (st : σ)
      (calls : List Request) (err : Option String),
      (runPhases svc ⟨w, st, calls, err⟩ ps).w
          = (runPhases (pureSvc f) ⟨w, (), calls, err⟩ ps).w
      ∧ (runPhases svc ⟨w, st, calls, err⟩ ps).calls
          = (runPhases (pureSvc f) ⟨w, (), calls, err⟩ ps).calls
      ∧ (runPhases svc ⟨w, st, calls, err⟩ ps).err
          = (runPhases (pureSvc f) ⟨w, (), calls, err⟩ ps).err := by
  intro ps
  induction ps with
  | nil =>
    intro w st calls err
    exact ⟨rfl, rfl, rfl⟩
  | cons p ps ih =>
    intro w st calls err
    cases err with
    | some e =>
      rw [runPhases_cons, runPhases_cons]
      exact ih w st calls (some e)
    | none =>
      rw [runPhases_cons, runPhases_cons]
      obtain ⟨r, st2, hsvc⟩ : ∃ r st2, svc st (p.2 w) = (r, st2) :=
        ⟨(svc st (p.2 w)).1, (svc st (p.2 w)).2, rfl⟩
      have hr : r = f (p.2 w) := by
        have := h st (p.2 w)
        rw [hsvc] at this
        exact this
      cases hfr : f (p.2 w) with
      | ok text =>
        have hstep : stepPhase svc p.1 p.2 ⟨w, st, calls, none⟩
            = ⟨{ w with outputs := dictInsert w.outputs p.1 text }, st2,
               calls ++ [p.2 w], none⟩ := by
          have hsvc2 : svc st (p.2 w) = (Except.ok text, st2) := by
            rw [hsvc, hr, hfr]
          simp [stepPhase, hsvc2]
        have hstep2 : stepPhase (pureSvc f) p.1 p.2 ⟨w, (), calls, none⟩
            = ⟨{ w with outputs := dictInsert w.outputs p.1 text }, (),
               calls ++ [p.2 w], none⟩ := by
          simp [stepPhase, pureSvc, hfr]
        rw [hstep, hstep2]
        exact ih _ _ _ _
      | error e =>
        have hstep : stepPhase svc p.1 p.2 ⟨w, st, calls, none⟩
            = ⟨w, st2, calls ++ [p.2 w], some e⟩ := by
          have hsvc2 : svc st (p.2 w) = (Except.error e, st2) := by
            rw [hsvc, hr, hfr]
          simp [stepPhase, hsvc2]
        have hstep2 : stepPhase (pureSvc f) p.1 p.2 ⟨w, (), calls, none⟩
            = ⟨w, (), calls ++ [p.2 w], some e⟩ := by
          simp [stepPhase, pureSvc, hfr]
        rw [hstep, hstep2]
        exact ih _ _ _ _

/-- C8: against a deterministic service, one whose answer is a function f
of the request alone, running the pipeline a second time with a fresh
workflow, even from the service state left by the first run, yields the
same outputs mapping as the first run. -/
theorem rerun_with_deterministic_service_is_idempotent {σ : Type}
    (svc : ServiceM σ) (f : Request → Except String String)
    (h : ∀ st req, (svc st req).1 = f req)
    (st : σ) (model product_name : String) :
    (runWorkflow svc ((runWorkflow svc st model product_name).svcState)
        model product_name).w.outputs
      = (runWorkflow svc st model product_name).w.outputs := by
  have h1 := (runPhases_state_independent svc f h phaseList
    (mkWorkflow model product_name) st [] none).1
  have h2 := (runPhases_state_independent svc f h phaseList
    (mkWorkflow model product_name)
    ((runWorkflow svc st model product_name).svcState) [] none).1
  have e1 : (runWorkflow svc st model product_name).w
      = (runPhases (pureSvc f)
          ⟨mkWorkflow model product_name, (), [], none⟩ phaseList).w := h1
  have e2 : (runWorkflow svc ((runWorkflow svc st model product_name).svcState)
        model product_name).w
      = (runPhases (pureSvc f)
          ⟨mkWorkflow model product_name, (), [], none⟩ phaseList).w := h2
  rw [e2, ← e1]

/-- A deterministic service with an irrelevant call counter as state:
every request is answered with the text X. -/
def countSvc : ServiceM Nat := fun n _ => (Except.ok "X", n + 1)

/-- Witness for C8: rerunning against the counting service from the state
left by a first concrete run reproduces the outputs of that run. -/
theorem rerun_with_deterministic_service_is_idempotent_witness :
    (runWorkflow countSvc ((runWorkflow countSvc 0 "m" "p").svcState)
        "m" "p").w.outputs
      = (runWorkflow countSvc 0 "m" "p").w.outputs :=
  rerun_with_deterministic_service_is_idempotent countSvc
    (fun _ => Except.ok "X") (fun _ _ => rfl) 0 "m" "p"

/-- C9: every request built by any of the five phases carries exactly two
messages, a system message followed by a user message, and the five
builders are exactly the request builders the run iterates. -/
theorem requests_have_system_then_user (w : Workflow) :
    roleSeq (phase1Req w) = ["system", "user"]
    ∧ roleSeq (phase2Req w) = ["system", "user"]
    ∧ roleSeq (phase3Req w) = ["system", "user"]
    ∧ roleSeq (phase4Req w) = ["system", "user"]
    ∧ roleSeq (phase5Req w) = ["system", "user"]
    ∧ (phase1Req w).messages.length = 2
    ∧ (phase2Req w).messages.length = 2
    ∧ (phase3Req w).messages.length = 2
    ∧ (phase4Req w).messages.length = 2
    ∧ (phase5Req w).messages.length = 2
    ∧ phaseList.map Prod.snd
      = [phase1Req, phase2Req, phase3Req, phase4Req, phase5Req] :=
  ⟨rfl, rfl, rfl, rfl, rfl, rfl, rfl, rfl, rfl, rfl, rfl⟩

/-- C10: the constructor default product name is the literal SmartHealth
Fitness Band, and running with the default is the same run as passing
that name explicitly. -/
theorem default_product_name_behaviour {σ : Type} (svc : ServiceM σ)
    (st : σ) (model : String) :
    default_product_name = "SmartHealth Fitness Band"
    ∧ mkWorkflowDefault model = mkWorkflow model "SmartHealth Fitness Band"
    ∧ runWorkflow svc st model default_product_name
      = runWorkflow svc st model "SmartHealth Fitness Band" :=
  ⟨rfl, rfl, rfl⟩

end AutogenMarketing
